import Mathlib

/-!
Shallow embedding of the Hash_It blog server (src/index.js and the earlier
variant src/unnamed/part_000).  Documents live in a `Store`; each Express
route handler becomes a pure function from a store, the session (the
authenticated user's id, if any) and the request parameters to the updated
store and the HTTP response.  Mongo object ids are modelled as `Nat`.
-/

namespace HashIt

/-- A user document (collection `User`): username and the stored password
hash (the model file hashes the password before saving). -/
structure User where
  id : Nat
  username : String
  passwordHash : String
deriving Repr, DecidableEq

/-- A post document (collection `Post`): title, caption, the free-form
`hash` tag field, optional image reference, author reference, the ordered
list of liker references, the ordered list of comment references, and the
creation timestamp. -/
structure Post where
  id : Nat
  title : String
  caption : String
  hash : String
  image : Option String
  author : Nat
  likes : List Nat
  comments : List Nat
  createdAt : Nat
deriving Repr, DecidableEq

/-- A comment document (collection `Comment`): content, author reference
and parent-post reference. -/
structure Comment where
  id : Nat
  content : String
  author : Nat
  post : Nat
deriving Repr, DecidableEq

/-- The document store: the three collections plus a counter supplying
fresh object ids (Mongo generates ObjectIds; we model them as a counter). -/
structure Store where
  users : List User
  posts : List Post
  comments : List Comment
  nextId : Nat
deriving Repr, DecidableEq

/-- An HTTP response as the handlers produce it: a redirect, a status code
with a body, or a flash message followed by a redirect. -/
inductive Response where
  | redirect (path : String)
  | status (code : Nat) (body : String)
  | flashRedirect (msg : String) (path : String)
deriving Repr, DecidableEq

/-- Modelled from the spec: the `User` model file (models/User.js) is not
under src/; per the spec the credential store "holds username, salted-hash
of password" and exposes verify-password.  We model hashing as an injective
tagging function. -/
def hashPassword (pw : String) : String := "hashed:" ++ pw

/-- Modelled from the spec: `user.comparePassword(password)` verifies the
given password against the stored hash. -/
def comparePassword (storedHash pw : String) : Bool := storedHash = hashPassword pw

/-- Lookup `Post.findById(id)`: the post document with the given id, if any. -/
def findPost (s : Store) (pid : Nat) : Option Post :=
  s.posts.find? (fun p => p.id == pid)

/-- Lookup `User.findOne` on the username. -/
def findUserByName (s : Store) (username : String) : Option User :=
  s.users.find? (fun u => u.username == username)

/-- Lookup `Comment.findById(id)` (used by populate). -/
def findComment (s : Store) (cid : Nat) : Option Comment :=
  s.comments.find? (fun c => c.id == cid)

/-- Saving, as in `post.save()`: write the (possibly modified) document
back over the stored document carrying the same id. -/
def savePost (posts : List Post) (p : Post) : List Post :=
  posts.map (fun q => if q.id = p.id then p else q)

/-- The like toggle both variants perform on `post.likes`:
`findIndex(id => id.equals(userId))`; `-1` means `push(userId)`, otherwise
`splice(index, 1)`. -/
def toggleLike (likes : List Nat) (uid : Nat) : List Nat :=
  match likes.findIdx? (fun x => x == uid) with
  | none => likes ++ [uid]
  | some i => likes.eraseIdx i

/-- POST /signup (identical in both variants, src/index.js lines 100-119):
if a user with the username exists, flash "Username already exists." and
redirect to /signup; otherwise save a new user (the model hashes the
password) and log the session in.  Result: store, session, response. -/
def signupHandler (s : Store) (username pw : String) :
    Store × Option Nat × Response :=
  match findUserByName s username with
  | some _ => (s, none, .flashRedirect "Username already exists." "/signup")
  | none =>
    let u : User := { id := s.nextId, username := username
                    , passwordHash := hashPassword pw }
    ({ s with users := s.users ++ [u], nextId := s.nextId + 1 },
     some u.id, .redirect "/posts")

/-- POST /login via the passport LocalStrategy of src/index.js lines 48-58:
missing user or failed password check gives no session and a flashed
"Invalid credentials" with the failureRedirect to /login; success gives a
session and the successRedirect to /posts. -/
def loginHandler (s : Store) (username pw : String) : Option Nat × Response :=
  match findUserByName s username with
  | none => (none, .flashRedirect "Invalid credentials" "/login")
  | some u =>
    if comparePassword u.passwordHash pw then (some u.id, .redirect "/posts")
    else (none, .flashRedirect "Invalid credentials" "/login")

/-- POST /login via the LocalStrategy of src/unnamed/part_000 lines 48-58,
which distinguishes the two failure messages. -/
def loginHandler0 (s : Store) (username pw : String) : Option Nat × Response :=
  match findUserByName s username with
  | none => (none, .flashRedirect "Incorrect username." "/login")
  | some u =>
    if comparePassword u.passwordHash pw then (some u.id, .redirect "/posts")
    else (none, .flashRedirect "Incorrect password." "/login")

/-- POST /posts (src/index.js lines 156-170), behind ensureAuthenticated:
save a new post owned by the caller and redirect to /posts.  `now` is the
creation timestamp the store assigns. -/
def createPostHandler (s : Store) (session : Option Nat)
    (title caption hashTag : String) (image : Option String) (now : Nat) :
    Store × Response :=
  match session with
  | none => (s, .redirect "/login")
  | some uid =>
    let p : Post := { id := s.nextId, title := title, caption := caption
                    , hash := hashTag, image := image, author := uid
                    , likes := [], comments := [], createdAt := now }
    ({ s with posts := s.posts ++ [p], nextId := s.nextId + 1 },
     .redirect "/posts")

/-- POST /posts/:id/like (src/index.js lines 173-188), behind
ensureAuthenticated.  The handler has no null check: when `findById` gives
null, `post.likes` throws and the catch answers 500 "Like failed".
Otherwise the toggle is applied and the document saved. -/
def likeHandler (s : Store) (session : Option Nat) (pid : Nat) :
    Store × Response :=
  match session with
  | none => (s, .redirect "/login")
  | some uid =>
    match findPost s pid with
    | none => (s, .status 500 "Like failed")
    | some post =>
      let post' := { post with likes := toggleLike post.likes uid }
      ({ s with posts := savePost s.posts post' }, .redirect "/posts")

/-- POST /posts/:id/like of src/unnamed/part_000 lines 211-234, behind
ensureAuthenticated: an explicit 404 on a missing post, then the same
toggle. -/
def likeHandler0 (s : Store) (session : Option Nat) (pid : Nat) :
    Store × Response :=
  match session with
  | none => (s, .redirect "/login")
  | some uid =>
    match findPost s pid with
    | none => (s, .status 404 "Post not found")
    | some post =>
      let post' := { post with likes := toggleLike post.likes uid }
      ({ s with posts := savePost s.posts post' }, .redirect "/posts")

/-- POST /posts/:id/comments (src/index.js lines 191-212), behind
ensureAuthenticated: 404 on a missing post; otherwise save a new comment,
push its id onto `post.comments`, save the post and redirect to
"/posts#" + post id. -/
def commentHandler (s : Store) (session : Option Nat) (pid : Nat)
    (content : String) : Store × Response :=
  match session with
  | none => (s, .redirect "/login")
  | some uid =>
    match findPost s pid with
    | none => (s, .status 404 "Post not found")
    | some post =>
      let c : Comment := { id := s.nextId, content := content
                         , author := uid, post := post.id }
      let post' := { post with comments := post.comments ++ [c.id] }
      ({ s with comments := s.comments ++ [c]
              , posts := savePost s.posts post'
              , nextId := s.nextId + 1 },
       .redirect ("/posts#" ++ toString post.id))

/-- POST /posts/:id/comments of src/unnamed/part_000 lines 173-197, behind
ensureAuthenticated: a missing post flashes "Post not found." and redirects
to /posts; otherwise the same creation, redirecting to /posts. -/
def commentHandler0 (s : Store) (session : Option Nat) (pid : Nat)
    (content : String) : Store × Response :=
  match session with
  | none => (s, .redirect "/login")
  | some uid =>
    match findPost s pid with
    | none => (s, .flashRedirect "Post not found." "/posts")
    | some post =>
      let c : Comment := { id := s.nextId, content := content
                         , author := uid, post := post.id }
      let post' := { post with comments := post.comments ++ [c.id] }
      ({ s with comments := s.comments ++ [c]
              , posts := savePost s.posts post'
              , nextId := s.nextId + 1 },
       .redirect "/posts")

/-- DELETE /posts/:id (src/index.js lines 216-231), behind
ensureAuthenticated: 404 on a missing post, 403 "Unauthorized" when the
caller is not the author, otherwise `findByIdAndDelete` and redirect. -/
def deleteHandler (s : Store) (session : Option Nat) (pid : Nat) :
    Store × Response :=
  match session with
  | none => (s, .redirect "/login")
  | some uid =>
    match findPost s pid with
    | none => (s, .status 404 "Post not found")
    | some post =>
      if post.author = uid then
        ({ s with posts := s.posts.filter (fun q => q.id != pid) },
         .redirect "/posts")
      else (s, .status 403 "Unauthorized")

/-- DELETE /posts/:id of src/unnamed/part_000 lines 200-208: the route has
no ensureAuthenticated guard and no existence or authorship check; it
ignores the session, runs `findByIdAndDelete` and redirects to /posts. -/
def deleteHandler0 (s : Store) (_session : Option Nat) (pid : Nat) :
    Store × Response :=
  ({ s with posts := s.posts.filter (fun q => q.id != pid) },
   .redirect "/posts")

/-- Resolution `populate("author", "username")`: the author reference
resolved to the referenced user's username (null when the reference
dangles). -/
def resolveUserName (s : Store) (uid : Nat) : Option String :=
  (s.users.find? (fun u => u.id == uid)).map (fun u => u.username)

/-- A populated comment: the comment document together with its author's
resolved username. -/
structure CommentView where
  comment : Comment
  authorName : Option String
deriving Repr, DecidableEq

/-- A post as GET /posts renders it: the document, its author's resolved
username, and its comment references populated (each resolved comment in
turn carries its author's resolved username). -/
structure PostView where
  post : Post
  authorName : Option String
  commentViews : List (Option CommentView)
deriving Repr, DecidableEq

/-- Populate one post for the listing. -/
def renderPost (s : Store) (p : Post) : PostView :=
  { post := p
  , authorName := resolveUserName s p.author
  , commentViews := p.comments.map (fun cid =>
      (findComment s cid).map (fun c =>
        { comment := c, authorName := resolveUserName s c.author })) }

/-- GET /posts (src/index.js lines 138-148), behind ensureAuthenticated:
all posts, sorted by `createdAt` descending (`.sort({ createdAt: -1 })`),
with authors and comments populated. -/
def listPosts (s : Store) : List PostView :=
  (List.insertionSort (fun p q => q.createdAt ≤ p.createdAt) s.posts).map
    (renderPost s)

instance : IsTotal Post (fun p q => q.createdAt ≤ p.createdAt) :=
  ⟨fun a b => Nat.le_total b.createdAt a.createdAt⟩

instance : IsTrans Post (fun p q => q.createdAt ≤ p.createdAt) :=
  ⟨fun _ _ _ hab hbc => Nat.le_trans hbc hab⟩

/-- Sample documents and stores used by the concrete witnesses below. -/
def alice : User := { id := 1, username := "alice", passwordHash := hashPassword "pw1" }

def bob : User := { id := 2, username := "bob", passwordHash := hashPassword "pw2" }

def post1 : Post :=
  { id := 10, title := "t1", caption := "c1", hash := "h1", image := none
  , author := 1, likes := [2], comments := [], createdAt := 5 }

def post2 : Post :=
  { id := 11, title := "t2", caption := "c2", hash := "h2", image := some "i2"
  , author := 2, likes := [], comments := [30], createdAt := 9 }

def comment30 : Comment := { id := 30, content := "hi", author := 1, post := 11 }

def store0 : Store :=
  { users := [alice, bob], posts := [post1, post2]
  , comments := [comment30], nextId := 100 }

/-! Helper lemmas shared by the claim theorems. -/

/-- A successful JS `findIndex` names the first occurrence: splicing at the
found index is erasing the first occurrence of the element. -/
theorem eraseIdx_of_findIdx?_beq (l : List Nat) (a : Nat) :
    ∀ i, l.findIdx? (fun x => x == a) = some i →
      a ∈ l ∧ l.eraseIdx i = l.erase a := by
  induction l with
  | nil => intro i h; simp [List.findIdx?] at h
  | cons x xs ih =>
    intro i h
    rw [List.findIdx?_cons] at h
    by_cases hx : x = a
    · subst hx
      simp only [beq_self_eq_true, if_pos] at h
      obtain rfl : (0 : Nat) = i := Option.some_injective _ h
      simp [List.erase_cons_head]
    · have hb : (x == a) = false := beq_false_of_ne hx
      rw [hb] at h
      simp only [Bool.false_eq_true, if_false, List.findIdx?_succ] at h
      obtain ⟨j, hj, rfl⟩ := Option.map_eq_some'.1 h
      obtain ⟨hmem, herase⟩ := ih j hj
      refine ⟨List.mem_cons_of_mem x hmem, ?_⟩
      rw [List.eraseIdx_cons_succ, List.erase_cons_tail, herase]
      simpa using hx

/-- The toggle in closed form: erase the first occurrence when present,
append when absent. -/
theorem toggleLike_eq (l : List Nat) (a : Nat) :
    toggleLike l a = if a ∈ l then l.erase a else l ++ [a] := by
  unfold toggleLike
  cases h : l.findIdx? (fun x => x == a) with
  | none =>
    have hnm : a ∉ l := by
      intro hmem
      have := (List.findIdx?_eq_none_iff.1 h) a hmem
      simp at this
    rw [if_neg hnm]
  | some i =>
    obtain ⟨hmem, herase⟩ := eraseIdx_of_findIdx?_beq l a i h
    rw [if_pos hmem]
    exact herase

/-- A toggle keeps the like list duplicate-free. -/
theorem toggleLike_nodup (l : List Nat) (a : Nat) (h : l.Nodup) :
    (toggleLike l a).Nodup := by
  rw [toggleLike_eq]
  by_cases hm : a ∈ l
  · rw [if_pos hm]; exact h.erase a
  · rw [if_neg hm]
    simp [List.nodup_append, h, hm]

/-- Two toggles by the same user return the like list to a permutation of
itself (so: the same length and the same membership). -/
theorem toggleLike_toggleLike (l : List Nat) (a : Nat) (h : l.Nodup) :
    (toggleLike (toggleLike l a) a).Perm l := by
  by_cases hm : a ∈ l
  · rw [toggleLike_eq l a, if_pos hm, toggleLike_eq, if_neg ?nm]
    case nm =>
      intro hc
      exact ((h.mem_erase_iff).1 hc).1 rfl
    exact (List.perm_append_singleton a (l.erase a)).trans
      (List.perm_cons_erase hm).symm
  · rw [toggleLike_eq l a, if_neg hm, toggleLike_eq,
      if_pos (by simp : a ∈ l ++ [a]), List.erase_append_right _ hm,
      List.erase_cons_head]
    simp

/-- Saving a document whose id was found leaves it findable: the lookup now
answers the saved version. -/
theorem find?_savePost (posts : List Post) (pid : Nat) (p p' : Post)
    (h : posts.find? (fun q => q.id == pid) = some p) (hid : p'.id = pid) :
    (savePost posts p').find? (fun q => q.id == pid) = some p' := by
  induction posts with
  | nil => simp [List.find?] at h
  | cons q rest ih =>
    by_cases hq : q.id = pid
    · show ((if q.id = p'.id then p' else q) :: savePost rest p').find?
        (fun q => q.id == pid) = some p'
      rw [if_pos (by rw [hq, hid])]
      exact List.find?_cons_of_pos _ (by simp [hid])
    · have hneg : ¬ ((q.id == pid) = true) := by simpa using hq
      have h' : rest.find? (fun r => r.id == pid) = some p := by
        rwa [@List.find?_cons_of_neg Post (fun r => r.id == pid) q rest hneg] at h
      show ((if q.id = p'.id then p' else q) :: savePost rest p').find?
        (fun q => q.id == pid) = some p'
      rw [if_neg (by rw [hid]; exact hq),
        @List.find?_cons_of_neg Post (fun r => r.id == pid) q (savePost rest p') hneg]
      exact ih h'

/-- One authenticated like request on an existing post: the handler's
output spelled out, and the lookup after it. -/
theorem like_step (s : Store) (uid pid : Nat) (p : Post)
    (hp : findPost s pid = some p) :
    likeHandler s (some uid) pid =
      ({ s with posts :=
          savePost s.posts { p with likes := toggleLike p.likes uid } },
       Response.redirect "/posts") ∧
    findPost (likeHandler s (some uid) pid).1 pid =
      some { p with likes := toggleLike p.likes uid } := by
  have hpid : p.id = pid := by
    have := List.find?_some hp
    simpa using this
  have h1 : likeHandler s (some uid) pid =
      ({ s with posts :=
          savePost s.posts { p with likes := toggleLike p.likes uid } },
       Response.redirect "/posts") := by
    simp [likeHandler, hp]
  refine ⟨h1, ?_⟩
  rw [h1]
  exact find?_savePost s.posts pid p _ hp hpid

/-- One authenticated like request on an existing post, part_000 variant:
the same store transformation. -/
theorem like_step0 (s : Store) (uid pid : Nat) (p : Post)
    (hp : findPost s pid = some p) :
    likeHandler0 s (some uid) pid =
      ({ s with posts :=
          savePost s.posts { p with likes := toggleLike p.likes uid } },
       Response.redirect "/posts") ∧
    findPost (likeHandler0 s (some uid) pid).1 pid =
      some { p with likes := toggleLike p.likes uid } := by
  have hpid : p.id = pid := by
    have := List.find?_some hp
    simpa using this
  have h1 : likeHandler0 s (some uid) pid =
      ({ s with posts :=
          savePost s.posts { p with likes := toggleLike p.likes uid } },
       Response.redirect "/posts") := by
    simp [likeHandler0, hp]
  refine ⟨h1, ?_⟩
  rw [h1]
  exact find?_savePost s.posts pid p _ hp hpid

/-! Claim theorems. -/

/-- C1 (corrected): the claim says a like toggle on a missing post fails
with NotFound, but the src/index.js handler has no null check: the thrown
access on the null document is caught and answered 500 "Like failed"; the
part_000 variant does answer 404.  Concretely, post 99 is absent from
store0, and the response is the 500 and not the 404. -/
theorem C1_like_missing_cex :
    findPost store0 99 = none ∧
    (likeHandler store0 (some 1) 99).2 = Response.status 500 "Like failed" ∧
    (likeHandler store0 (some 1) 99).2 ≠ Response.status 404 "Post not found" ∧
    (likeHandler store0 (some 1) 99).1 = store0 := by decide

/-- C1 (amended): on a missing post the later variant answers 500 "Like
failed" while part_000 answers 404 NotFound, neither mutating the store; on
an existing post both variants store the same toggled post: the caller's
reference is erased when present and appended when absent. -/
theorem C1_like_toggle (s : Store) (uid pid : Nat) :
    (findPost s pid = none →
      likeHandler s (some uid) pid = (s, Response.status 500 "Like failed") ∧
      likeHandler0 s (some uid) pid = (s, Response.status 404 "Post not found")) ∧
    (∀ p, findPost s pid = some p →
      ∃ p', findPost (likeHandler s (some uid) pid).1 pid = some p' ∧
        findPost (likeHandler0 s (some uid) pid).1 pid = some p' ∧
        (uid ∈ p.likes → p'.likes = p.likes.erase uid) ∧
        (uid ∉ p.likes → p'.likes = p.likes ++ [uid])) := by
  constructor
  · intro h
    constructor
    · simp [likeHandler, h]
    · simp [likeHandler0, h]
  · intro p hp
    refine ⟨{ p with likes := toggleLike p.likes uid },
      (like_step s uid pid p hp).2, (like_step0 s uid pid p hp).2, ?_, ?_⟩
    · intro hm
      show toggleLike p.likes uid = p.likes.erase uid
      rw [toggleLike_eq, if_pos hm]
    · intro hm
      show toggleLike p.likes uid = p.likes ++ [uid]
      rw [toggleLike_eq, if_neg hm]

/-- C1 witness: both branches of the amended theorem exercised on store0
(post 99 missing; post 10 present, first without then with user 2 among the
likes). -/
theorem C1_like_toggle_w :
    (likeHandler store0 (some 1) 99 = (store0, Response.status 500 "Like failed") ∧
     likeHandler0 store0 (some 1) 99 = (store0, Response.status 404 "Post not found")) ∧
    (∃ p', findPost (likeHandler store0 (some 2) 10).1 10 = some p' ∧
      findPost (likeHandler0 store0 (some 2) 10).1 10 = some p' ∧
      (2 ∈ post1.likes → p'.likes = post1.likes.erase 2) ∧
      (2 ∉ post1.likes → p'.likes = post1.likes ++ [2])) :=
  ⟨(C1_like_toggle store0 1 99).1 (by decide),
   (C1_like_toggle store0 2 10).2 post1 (by decide)⟩

/-- C2: toggling the like of the same user twice on the same existing post
returns the stored like list to the original length and membership (the
like lists of stored posts are duplicate-free, per the data model). -/
theorem C2_double_toggle (s : Store) (uid pid : Nat) (p : Post)
    (hp : findPost s pid = some p) (hnd : p.likes.Nodup) :
    ∃ p2, findPost (likeHandler (likeHandler s (some uid) pid).1
        (some uid) pid).1 pid = some p2 ∧
      p2.likes.length = p.likes.length ∧
      ∀ x, x ∈ p2.likes ↔ x ∈ p.likes := by
  have h1 := (like_step s uid pid p hp).2
  have h2 := (like_step _ uid pid _ h1).2
  have hperm : (toggleLike (toggleLike p.likes uid) uid).Perm p.likes :=
    toggleLike_toggleLike p.likes uid hnd
  exact ⟨_, h2, hperm.length_eq, fun x => hperm.mem_iff⟩

/-- C2 witness: user 7 toggles twice on post 10 of store0. -/
theorem C2_double_toggle_w :
    ∃ p2, findPost (likeHandler (likeHandler store0 (some 7) 10).1
        (some 7) 10).1 10 = some p2 ∧
      p2.likes.length = post1.likes.length ∧
      ∀ x, x ∈ p2.likes ↔ x ∈ post1.likes :=
  C2_double_toggle store0 7 10 post1 (by decide) (by decide)

/-- C3: a like toggle on a post whose like list holds each user at most
once leaves a like list that still holds each user at most once. -/
theorem C3_toggle_preserves_nodup (s : Store) (uid pid : Nat) (p : Post)
    (hp : findPost s pid = some p) (hnd : p.likes.Nodup) :
    ∃ p', findPost (likeHandler s (some uid) pid).1 pid = some p' ∧
      p'.likes.Nodup :=
  ⟨_, (like_step s uid pid p hp).2, toggleLike_nodup p.likes uid hnd⟩

/-- C3 witness: user 2 (already a liker) toggles on post 10 of store0. -/
theorem C3_toggle_preserves_nodup_w :
    ∃ p', findPost (likeHandler store0 (some 2) 10).1 10 = some p' ∧
      p'.likes.Nodup :=
  C3_toggle_preserves_nodup store0 2 10 post1 (by decide) (by decide)

/-- C4: signup with a taken username changes nothing (no new account, the
stored credential untouched), establishes no session, flashes "Username
already exists." and redirects to /signup; login with the original
password still succeeds afterwards. -/
theorem C4_signup_taken (s : Store) (username pw : String) (u : User)
    (hu : findUserByName s username = some u) :
    (signupHandler s username pw).1 = s ∧
    (signupHandler s username pw).2.1 = none ∧
    (signupHandler s username pw).2.2 =
      Response.flashRedirect "Username already exists." "/signup" ∧
    ∀ pw0, comparePassword u.passwordHash pw0 = true →
      (loginHandler (signupHandler s username pw).1 username pw0).1 = some u.id := by
  have h : signupHandler s username pw =
      (s, none, Response.flashRedirect "Username already exists." "/signup") := by
    simp [signupHandler, hu]
  refine ⟨by rw [h], by rw [h], by rw [h], ?_⟩
  intro pw0 hc
  rw [h]
  simp [loginHandler, hu, hc]

/-- C4 witness: signing up again as alice of store0; her password "pw1"
still logs her in. -/
theorem C4_signup_taken_w :
    (signupHandler store0 "alice" "other").1 = store0 ∧
    (signupHandler store0 "alice" "other").2.1 = none ∧
    (signupHandler store0 "alice" "other").2.2 =
      Response.flashRedirect "Username already exists." "/signup" ∧
    ∀ pw0, comparePassword alice.passwordHash pw0 = true →
      (loginHandler (signupHandler store0 "alice" "other").1 "alice" pw0).1 =
        some alice.id :=
  C4_signup_taken store0 "alice" "other" alice (by decide)

/-- C5: login gives no session and the flashed invalid-credentials redirect
when the user is missing or the password fails verification; a session is
established only when verification succeeds (and then for the found user);
the part_000 strategy grants sessions identically. -/
theorem C5_login (s : Store) (username pw : String) :
    (findUserByName s username = none →
      loginHandler s username pw =
        (none, Response.flashRedirect "Invalid credentials" "/login")) ∧
    (∀ u, findUserByName s username = some u →
      comparePassword u.passwordHash pw = false →
      loginHandler s username pw =
        (none, Response.flashRedirect "Invalid credentials" "/login")) ∧
    (∀ uid, (loginHandler s username pw).1 = some uid →
      ∃ u, findUserByName s username = some u ∧
        comparePassword u.passwordHash pw = true ∧ uid = u.id) ∧
    (loginHandler0 s username pw).1 = (loginHandler s username pw).1 := by
  refine ⟨?_, ?_, ?_, ?_⟩
  · intro h
    simp [loginHandler, h]
  · intro u hu hc
    simp [loginHandler, hu, hc]
  · intro uid huid
    cases hu : findUserByName s username with
    | none => simp [loginHandler, hu] at huid
    | some u =>
      by_cases hc : comparePassword u.passwordHash pw = true
      · have hid : u.id = uid := by simpa [loginHandler, hu, hc] using huid
        exact ⟨u, rfl, hc, hid.symm⟩
      · simp [loginHandler, hu, hc] at huid
  · cases hu : findUserByName s username with
    | none => simp [loginHandler, loginHandler0, hu]
    | some u =>
      by_cases hc : comparePassword u.passwordHash pw = true
      · simp [loginHandler, loginHandler0, hu, hc]
      · simp only [loginHandler, loginHandler0, hu, if_neg hc]

/-- C5 witness: a wrong password for alice of store0 is rejected with no
session, and a correct login's session belongs to the found user. -/
theorem C5_login_w :
    loginHandler store0 "alice" "bad" =
      (none, Response.flashRedirect "Invalid credentials" "/login") ∧
    (∃ u, findUserByName store0 "alice" = some u ∧
      comparePassword u.passwordHash "pw1" = true ∧ (1 : Nat) = u.id) :=
  ⟨(C5_login store0 "alice" "bad").2.1 alice (by decide) (by decide),
   (C5_login store0 "alice" "pw1").2.2.1 1 (by decide)⟩

/-- C6 (code bug): the part_000 DELETE route checks nothing: user 2, not
the author of post 10 (authored by user 1), deletes it and is redirected to
/posts; the src/index.js route rejects the same request with 403 and the
store, and hence the listing, is unchanged there. -/
theorem C6_delete_no_author_check :
    post1.author = 1 ∧
    (deleteHandler0 store0 (some 2) 10).1.posts = [post2] ∧
    (deleteHandler0 store0 (some 2) 10).1.posts ≠ store0.posts ∧
    (deleteHandler0 store0 (some 2) 10).2 = Response.redirect "/posts" ∧
    deleteHandler store0 (some 2) 10 = (store0, Response.status 403 "Unauthorized") ∧
    listPosts (deleteHandler store0 (some 2) 10).1 = listPosts store0 := by
  decide

/-- C7 (code bug): an unauthenticated delete through the part_000 route
mutates the store (post 10 disappears) and redirects to /posts, not
/login; every other post-mutating route of either variant, and the
src/index.js delete, refuses the sessionless request with a /login
redirect and no mutation. -/
theorem C7_unauthenticated_delete_mutates :
    deleteHandler0 store0 none 10 =
      ({ store0 with posts := [post2] }, Response.redirect "/posts") ∧
    ({ store0 with posts := [post2] } : Store) ≠ store0 ∧
    Response.redirect "/posts" ≠ Response.redirect "/login" ∧
    likeHandler store0 none 10 = (store0, Response.redirect "/login") ∧
    commentHandler store0 none 10 "x" = (store0, Response.redirect "/login") ∧
    createPostHandler store0 none "t" "c" "h" none 0 =
      (store0, Response.redirect "/login") ∧
    deleteHandler store0 none 10 = (store0, Response.redirect "/login") ∧
    likeHandler0 store0 none 10 = (store0, Response.redirect "/login") ∧
    commentHandler0 store0 none 10 "x" = (store0, Response.redirect "/login") := by
  decide

/-- C8: the listing holds every post of the store (as a permutation),
newest first (creation timestamps weakly decreasing along the list), and
every rendered entry carries the resolved author username and the resolved
comments, each with its author resolved. -/
theorem C8_listing (s : Store) :
    ((listPosts s).map PostView.post).Perm s.posts ∧
    List.Sorted (fun v w => w.post.createdAt ≤ v.post.createdAt) (listPosts s) ∧
    ∀ v ∈ listPosts s,
      v.authorName = resolveUserName s v.post.author ∧
      v.commentViews = v.post.comments.map (fun cid =>
        (findComment s cid).map (fun c =>
          { comment := c, authorName := resolveUserName s c.author })) := by
  refine ⟨?_, ?_, ?_⟩
  · simp only [listPosts, List.map_map]
    have hcomp : (PostView.post ∘ renderPost s) = id := funext fun _ => rfl
    rw [hcomp, List.map_id]
    exact List.perm_insertionSort _ _
  · have hs := List.sorted_insertionSort
      (fun p q : Post => q.createdAt ≤ p.createdAt) s.posts
    simp only [listPosts, List.Sorted, List.pairwise_map]
    exact hs
  · intro v hv
    simp only [listPosts, List.mem_map] at hv
    obtain ⟨p, _, rfl⟩ := hv
    exact ⟨rfl, rfl⟩

/-- C8 witness: the listing of store0, with the rendered post2 checked for
resolved author and comments. -/
theorem C8_listing_w :
    ((listPosts store0).map PostView.post).Perm store0.posts ∧
    ((renderPost store0 post2).authorName =
        resolveUserName store0 (renderPost store0 post2).post.author ∧
      (renderPost store0 post2).commentViews =
        (renderPost store0 post2).post.comments.map (fun cid =>
          (findComment store0 cid).map (fun c =>
            { comment := c, authorName := resolveUserName store0 c.author }))) :=
  ⟨(C8_listing store0).1,
   (C8_listing store0).2.2 (renderPost store0 post2) (by decide)⟩

/-- C9: adding a comment to a missing post changes nothing and fails as
not-found (404 in src/index.js, the flashed "Post not found." redirect in
part_000); on an existing post exactly one comment document is appended to
the comment store, carrying the given content, the caller as author and the
post as parent, its id is appended to the end of the post's comment list,
and the handler redirects to the posts page anchored at the post. -/
theorem C9_add_comment (s : Store) (uid pid : Nat) (content : String) :
    (findPost s pid = none →
      commentHandler s (some uid) pid content =
        (s, Response.status 404 "Post not found") ∧
      commentHandler0 s (some uid) pid content =
        (s, Response.flashRedirect "Post not found." "/posts")) ∧
    (∀ p, findPost s pid = some p →
      (commentHandler s (some uid) pid content).1.comments =
        s.comments ++ [{ id := s.nextId, content := content
                       , author := uid, post := p.id }] ∧
      (∃ p', findPost (commentHandler s (some uid) pid content).1 pid = some p' ∧
        p'.comments = p.comments ++ [s.nextId] ∧
        p'.likes = p.likes ∧ p'.title = p.title ∧ p'.author = p.author) ∧
      (commentHandler s (some uid) pid content).2 =
        Response.redirect ("/posts#" ++ toString p.id)) := by
  constructor
  · intro h
    constructor
    · simp [commentHandler, h]
    · simp [commentHandler0, h]
  · intro p hp
    have hpid : p.id = pid := by
      have := List.find?_some hp
      simpa using this
    have h1 : commentHandler s (some uid) pid content =
        ({ s with
            comments := s.comments ++
              [{ id := s.nextId, content := content, author := uid, post := p.id }],
            posts := savePost s.posts { p with comments := p.comments ++ [s.nextId] },
            nextId := s.nextId + 1 },
         Response.redirect ("/posts#" ++ toString p.id)) := by
      simp [commentHandler, hp]
    refine ⟨by rw [h1], ⟨{ p with comments := p.comments ++ [s.nextId] }, ?_,
      rfl, rfl, rfl, rfl⟩, by rw [h1]⟩
    rw [h1]
    exact find?_savePost s.posts pid p _ hp hpid

/-- C9 witness: both branches on store0 (post 99 missing; a comment by user
2 on post 10). -/
theorem C9_add_comment_w :
    (commentHandler store0 (some 2) 99 "yo" =
        (store0, Response.status 404 "Post not found") ∧
      commentHandler0 store0 (some 2) 99 "yo" =
        (store0, Response.flashRedirect "Post not found." "/posts")) ∧
    ((commentHandler store0 (some 2) 10 "yo").1.comments =
        store0.comments ++ [{ id := store0.nextId, content := "yo"
                            , author := 2, post := post1.id }] ∧
      (∃ p', findPost (commentHandler store0 (some 2) 10 "yo").1 10 = some p' ∧
        p'.comments = post1.comments ++ [store0.nextId] ∧
        p'.likes = post1.likes ∧ p'.title = post1.title ∧
        p'.author = post1.author) ∧
      (commentHandler store0 (some 2) 10 "yo").2 =
        Response.redirect ("/posts#" ++ toString post1.id)) :=
  ⟨(C9_add_comment store0 2 99 "yo").1 (by decide),
   (C9_add_comment store0 2 10 "yo").2 post1 (by decide)⟩

/-- C10: a successful like toggle touches nothing but the toggled post's
like list: users, comments and the id counter are untouched, the stored
post keeps its title, caption, hash tag, image, author, comment list and
creation timestamp, every other post survives unchanged, and nothing new
appears besides the toggled post. -/
theorem C10_like_frame (s : Store) (uid pid : Nat) (p : Post)
    (hp : findPost s pid = some p) :
    (likeHandler s (some uid) pid).1.users = s.users ∧
    (likeHandler s (some uid) pid).1.comments = s.comments ∧
    (likeHandler s (some uid) pid).1.nextId = s.nextId ∧
    findPost (likeHandler s (some uid) pid).1 pid =
      some { p with likes := toggleLike p.likes uid } ∧
    ({ p with likes := toggleLike p.likes uid } : Post).title = p.title ∧
    ({ p with likes := toggleLike p.likes uid } : Post).caption = p.caption ∧
    ({ p with likes := toggleLike p.likes uid } : Post).hash = p.hash ∧
    ({ p with likes := toggleLike p.likes uid } : Post).image = p.image ∧
    ({ p with likes := toggleLike p.likes uid } : Post).author = p.author ∧
    ({ p with likes := toggleLike p.likes uid } : Post).comments = p.comments ∧
    ({ p with likes := toggleLike p.likes uid } : Post).createdAt = p.createdAt ∧
    (∀ q ∈ s.posts, q.id ≠ pid → q ∈ (likeHandler s (some uid) pid).1.posts) ∧
    (∀ q ∈ (likeHandler s (some uid) pid).1.posts,
      q ∈ s.posts ∨ q = { p with likes := toggleLike p.likes uid }) := by
  have hpid : p.id = pid := by
    have := List.find?_some hp
    simpa using this
  have h1 := (like_step s uid pid p hp).1
  refine ⟨by rw [h1], by rw [h1], by rw [h1], (like_step s uid pid p hp).2,
    rfl, rfl, rfl, rfl, rfl, rfl, rfl, ?_, ?_⟩
  · intro q hq hne
    rw [h1]
    show q ∈ savePost s.posts { p with likes := toggleLike p.likes uid }
    refine List.mem_map.2 ⟨q, hq, ?_⟩
    rw [if_neg]
    show ¬ q.id = p.id
    rw [hpid]
    exact hne
  · intro q hq
    rw [h1] at hq
    obtain ⟨x, hx, hxq⟩ := List.mem_map.1 hq
    by_cases hxid : x.id = p.id
    · rw [if_pos hxid] at hxq
      exact Or.inr hxq.symm
    · rw [if_neg hxid] at hxq
      exact Or.inl (hxq ▸ hx)

/-- C10 witness: user 5 toggles on post 11 of store0. -/
theorem C10_like_frame_w :
    (likeHandler store0 (some 5) 11).1.users = store0.users ∧
    (likeHandler store0 (some 5) 11).1.comments = store0.comments ∧
    (likeHandler store0 (some 5) 11).1.nextId = store0.nextId ∧
    findPost (likeHandler store0 (some 5) 11).1 11 =
      some { post2 with likes := toggleLike post2.likes 5 } ∧
    ({ post2 with likes := toggleLike post2.likes 5 } : Post).title = post2.title ∧
    ({ post2 with likes := toggleLike post2.likes 5 } : Post).caption = post2.caption ∧
    ({ post2 with likes := toggleLike post2.likes 5 } : Post).hash = post2.hash ∧
    ({ post2 with likes := toggleLike post2.likes 5 } : Post).image = post2.image ∧
    ({ post2 with likes := toggleLike post2.likes 5 } : Post).author = post2.author ∧
    ({ post2 with likes := toggleLike post2.likes 5 } : Post).comments = post2.comments ∧
    ({ post2 with likes := toggleLike post2.likes 5 } : Post).createdAt = post2.createdAt ∧
    (∀ q ∈ store0.posts, q.id ≠ 11 → q ∈ (likeHandler store0 (some 5) 11).1.posts) ∧
    (∀ q ∈ (likeHandler store0 (some 5) 11).1.posts,
      q ∈ store0.posts ∨ q = { post2 with likes := toggleLike post2.likes 5 }) :=
  C10_like_frame store0 5 11 post2 (by decide)

end HashIt
